import Mathlib

/-!
# Verification of the Polly agentic RAG query pipeline

Shallow embedding of the pipeline core of the `polly-ai` server:

* the cost model (`democrata_server/domain/usage/entities.py`),
* the component data model (`polly_pipeline_server/domain/rag/entities.py`),
* the component constraint validator (`democrata_server/adapters/llm/constraints.py`),
* component parsing (`democrata_server/adapters/llm/components.py`),
* the intent-driven retriever (`polly_pipeline_server/adapters/agents/retriever.py`),
* the composer layout assembly (`polly_pipeline_server/adapters/agents/composer.py`),
* the pipeline orchestrator (`democrata_server/domain/rag/use_cases.py`).

Python `float` arithmetic in the cost model is idealised as exact rational
arithmetic over `ℚ`; Python's `round` (round-half-to-even) is modelled by
`roundHalfEven`.  UUIDs are modelled as natural-number identifiers drawn from a
counter.  Wall-clock timing (`processing_time_ms`) is modelled as `0`.
LLM, embedder, vector-store and cache collaborators are modelled as explicit
parameters/oracles, and the calls the orchestrator makes are recorded in an
event log so that claims about which stages run can be stated.
-/

namespace PollyPipeline

/-! ## Cost model — `democrata_server/domain/usage/entities.py`

Rates, in cents per 1K tokens (resp. per query):
`EMBEDDING_RATE_CENTS = 0.01`, `LLM_INPUT_RATE_CENTS = 1.0`,
`LLM_OUTPUT_RATE_CENTS = 3.0`, `VECTOR_QUERY_RATE_CENTS = 0.01`. -/

/-- Python's built-in `round`: round half to even (banker's rounding). -/
def roundHalfEven (q : ℚ) : ℤ :=
  if q - ((⌊q⌋ : ℤ) : ℚ) < 1/2 then ⌊q⌋
  else if 1/2 < q - ((⌊q⌋ : ℤ) : ℚ) then ⌊q⌋ + 1
  else if ⌊q⌋ % 2 = 0 then ⌊q⌋ else ⌊q⌋ + 1

/-- `CostBreakdown` from `domain/usage/entities.py` (token counts and cents). -/
structure CostBreakdown where
  embedding_tokens : ℕ := 0
  embedding_cost_cents : ℤ := 0
  llm_input_tokens : ℕ := 0
  llm_output_tokens : ℕ := 0
  llm_cost_cents : ℤ := 0
  vector_queries : ℕ := 0
  vector_cost_cents : ℤ := 0
  margin_cents : ℤ := 0
  total_cents : ℤ := 0
  total_credits : ℤ := 0
  deriving DecidableEq, Repr

/-- `CostBreakdown.zero()`. -/
def CostBreakdown.zero : CostBreakdown := {}

/-- The exact subtotal (in cents) before margin:
`tokens/1000 * rate` for each category plus `queries * 0.01`. -/
def costSubtotal (embeddingTokens llmInputTokens llmOutputTokens vectorQueries : ℕ) : ℚ :=
  ((embeddingTokens : ℚ) / 1000) * (1/100)
    + (((llmInputTokens : ℚ) / 1000) * 1 + ((llmOutputTokens : ℚ) / 1000) * 3)
    + (vectorQueries : ℚ) * (1/100)

/-- `CostBreakdown.calculate` from `domain/usage/entities.py`.

Each nonzero category floors at 1 cent (`max(1, round(x))` guarded by the
token/query count being positive); the margin is `subtotal * margin`, floored
at 1 cent when `margin > 0 and subtotal > 0`; the total is
`round(total_f) if total_f > 0 else 0`. -/
def CostBreakdown.calculate (embeddingTokens llmInputTokens llmOutputTokens vectorQueries : ℕ)
    (margin : ℚ) : CostBreakdown :=
  let embeddingCostF : ℚ := ((embeddingTokens : ℚ) / 1000) * (1/100)
  let llmInputCostF : ℚ := ((llmInputTokens : ℚ) / 1000) * 1
  let llmOutputCostF : ℚ := ((llmOutputTokens : ℚ) / 1000) * 3
  let llmCostF : ℚ := llmInputCostF + llmOutputCostF
  let vectorCostF : ℚ := (vectorQueries : ℚ) * (1/100)
  let subtotalF : ℚ := embeddingCostF + llmCostF + vectorCostF
  let marginF : ℚ := subtotalF * margin
  let totalF : ℚ := subtotalF + marginF
  { embedding_tokens := embeddingTokens
    embedding_cost_cents := if 0 < embeddingTokens then max 1 (roundHalfEven embeddingCostF) else 0
    llm_input_tokens := llmInputTokens
    llm_output_tokens := llmOutputTokens
    llm_cost_cents :=
      if 0 < llmInputTokens + llmOutputTokens then max 1 (roundHalfEven llmCostF) else 0
    vector_queries := vectorQueries
    vector_cost_cents := if 0 < vectorQueries then max 1 (roundHalfEven vectorCostF) else 0
    margin_cents := if 0 < margin ∧ 0 < subtotalF then max 1 (roundHalfEven marginF) else 0
    total_cents := if 0 < totalF then roundHalfEven totalF else 0
    total_credits := if 0 < totalF then roundHalfEven totalF else 0 }

/-! ## Component data model — `polly_pipeline_server/domain/rag/entities.py`

(The `democrata_server.domain.rag.entities` module imported by the
orchestrator is the same module under the project's other package name;
`polly_pipeline_server/domain/rag/entities.py` is the copy present in the
sources.) -/

/-- `TextFormat` enum. -/
inductive TextFormat where
  | plain
  | markdown
  deriving DecidableEq, Repr

/-- `ChartType` enum. -/
inductive ChartType where
  | bar
  | line
  | pie
  | doughnut
  | horizontal_bar
  | stacked_bar
  deriving DecidableEq, Repr

/-- `ChartType(value)` as a partial map: `some` exactly on the six member
strings, `none` (Python `ValueError`) otherwise. -/
def chartTypeOfString : String → Option ChartType
  | "bar" => some .bar
  | "line" => some .line
  | "pie" => some .pie
  | "doughnut" => some .doughnut
  | "horizontal_bar" => some .horizontal_bar
  | "stacked_bar" => some .stacked_bar
  | _ => none

/-- `NoticeLevel` enum. -/
inductive NoticeLevel where
  | info
  | warning
  | important
  deriving DecidableEq, Repr

/-- `SourceReference` dataclass. -/
structure SourceReference where
  document_id : String
  source_name : String
  source_url : Option String := none
  source_date : Option String := none
  section_ref : Option String := none
  deriving DecidableEq, Repr

/-- `TextBlock` dataclass (the `sources` list is always empty where the
pipeline constructs text blocks, so it is elided). -/
structure TextBlock where
  content : String
  title : Option String := none
  format : TextFormat := .markdown
  deriving DecidableEq, Repr

/-- `ChartDataPoint` dataclass; the float `value` is idealised as `ℚ`. -/
structure ChartDataPoint where
  label : String
  value : ℚ
  category : Option String := none
  deriving DecidableEq, Repr

/-- `ChartSeries` dataclass. -/
structure ChartSeries where
  name : String
  data : List ChartDataPoint
  deriving DecidableEq, Repr

/-- `Chart` dataclass. -/
structure Chart where
  chart_type : ChartType
  series : List ChartSeries
  title : Option String := none
  x_axis_label : Option String := none
  y_axis_label : Option String := none
  caption : Option String := none
  deriving DecidableEq, Repr

/-- `TimelineEvent` dataclass. -/
structure TimelineEvent where
  date : String
  label : String
  description : Option String := none
  reference_url : Option String := none
  significance : ℤ := 3
  deriving DecidableEq, Repr

/-- `Timeline` dataclass. -/
structure Timeline where
  events : List TimelineEvent
  title : Option String := none
  caption : Option String := none
  deriving DecidableEq, Repr

/-- `ComparisonItem` dataclass. -/
structure ComparisonItem where
  name : String
  description : Option String := none
  deriving DecidableEq, Repr

/-- `ComparisonAttribute` dataclass (`values` parallel to the items list). -/
structure ComparisonAttribute where
  name : String
  values : List String
  deriving DecidableEq, Repr

/-- `Comparison` dataclass. -/
structure Comparison where
  items : List ComparisonItem
  attributes : List ComparisonAttribute
  title : Option String := none
  caption : Option String := none
  deriving DecidableEq, Repr

/-- `TableColumn` dataclass. -/
structure TableColumn where
  header : String
  key : String
  sortable : Bool := false
  align : String := "left"
  deriving DecidableEq, Repr

/-- `DataTable` dataclass; a row (Python `dict[str, str]`) is modelled as an
association list. -/
structure DataTable where
  columns : List TableColumn
  rows : List (List (String × String))
  title : Option String := none
  caption : Option String := none
  deriving DecidableEq, Repr

/-- `Notice` dataclass. -/
structure Notice where
  message : String
  level : NoticeLevel := .info
  title : Option String := none
  deriving DecidableEq, Repr

/-- `MemberProfile` dataclass. -/
structure MemberProfile where
  member_id : String
  name : String
  party : String
  constituency : Option String := none
  roles : List String := []
  photo_url : Option String := none
  biography : Option String := none
  profile_url : Option String := none
  deriving DecidableEq, Repr

/-- `MemberProfiles` dataclass. -/
structure MemberProfiles where
  members : List MemberProfile
  title : Option String := none
  caption : Option String := none
  deriving DecidableEq, Repr

/-- `PartyVote` dataclass. -/
structure PartyVote where
  party : String
  votes_for : ℤ
  votes_against : ℤ
  abstentions : ℤ := 0
  not_voting : ℤ := 0
  deriving DecidableEq, Repr

/-- `VotingBreakdown` dataclass. -/
structure VotingBreakdown where
  total_for : ℤ
  total_against : ℤ
  party_breakdown : List PartyVote
  title : Option String := none
  date : Option String := none
  total_abstentions : ℤ := 0
  result : Option String := none
  caption : Option String := none
  deriving DecidableEq, Repr

/-- `ComponentContent`: the closed tagged union of the eight component
variants. -/
inductive ComponentContent where
  | textBlock (t : TextBlock)
  | chart (c : Chart)
  | timeline (t : Timeline)
  | comparison (c : Comparison)
  | dataTable (d : DataTable)
  | notice (n : Notice)
  | memberProfiles (m : MemberProfiles)
  | votingBreakdown (v : VotingBreakdown)
  deriving DecidableEq, Repr

/-- `Component` envelope: `Component.create` draws a fresh `uuid4`; UUIDs are
modelled as naturals supplied by a counter. -/
structure Component where
  id : ℕ
  content : ComponentContent
  size : Option String := none
  deriving DecidableEq, Repr

/-- `Section` dataclass (component references by id). -/
structure Section where
  component_ids : List ℕ
  title : Option String := none
  layout : Option String := none
  deriving DecidableEq, Repr

/-- `Layout` dataclass. -/
structure Layout where
  sections : List Section
  title : Option String := none
  subtitle : Option String := none
  deriving DecidableEq, Repr

/-- `QueryFilters` dataclass. -/
structure QueryFilters where
  document_types : Option (List String) := none
  date_from : Option String := none
  date_to : Option String := none
  sources : Option (List String) := none
  member_ids : Option (List String) := none
  deriving DecidableEq, Repr

/-- `Query` dataclass. -/
structure Query where
  text : String
  session_id : Option String := none
  filters : Option QueryFilters := none
  deriving DecidableEq, Repr

/-- `QueryMetadata` dataclass. -/
structure QueryMetadata where
  documents_retrieved : ℕ
  chunks_used : ℕ
  processing_time_ms : ℕ
  model : String
  deriving DecidableEq, Repr

/-- `RAGResult` dataclass (`cost` defaults to Python `None`). -/
structure RAGResult where
  layout : Layout
  components : List Component
  metadata : QueryMetadata
  sources : List SourceReference := []
  cached : Bool := false
  cost : Option CostBreakdown := none
  deriving DecidableEq, Repr

/-- `Chunk` from `polly_pipeline_server/domain/ingestion/entities.py`; the
UUID `id`/`document_id` are modelled as strings (the retriever dedups on
`str(chunk.id)`), `metadata` (`dict[str, str]`) as an association list. -/
structure Chunk where
  id : String
  document_id : String
  text : String
  position : ℕ := 0
  metadata : List (String × String) := []
  deriving DecidableEq, Repr

/-- `dict.get(key)` on chunk metadata. -/
def metaGet (m : List (String × String)) (key : String) : Option String :=
  m.lookup key

/-- `RetrievalResult` dataclass. -/
structure RetrievalResult where
  chunks : List Chunk
  strategy_used : String
  coverage : List (String × ℚ) := []
  is_sufficient : Bool := true
  warnings : List String := []
  deriving DecidableEq, Repr

/-- `RetrievalResult.context_texts` property. -/
def RetrievalResult.context_texts (r : RetrievalResult) : List String :=
  r.chunks.map (fun c => c.text)

/-! ## Agent entities

The module `polly_pipeline_server/domain/agents/entities.py` (also imported as
`democrata_server.domain.agents.entities`) is not present under the sources;
its record shapes are modelled from the spec (§3) and from how the present
code reads their fields. -/

/-- Modelled from the spec: `retrieval_strategy ∈ {single_focus, multi_entity,
chronological, broad}` (missing `RetrievalStrategy` enum of
`domain/agents/entities.py`). -/
inductive RetrievalStrategy where
  | single_focus
  | multi_entity
  | chronological
  | broad
  deriving DecidableEq, Repr

/-- Modelled from the spec: intent entities — parties, members, bills, topics,
optional date range, document types (missing `domain/agents/entities.py`). -/
structure IntentEntities where
  parties : List String := []
  members : List String := []
  bills : List String := []
  topics : List String := []
  date_from : Option String := none
  date_to : Option String := none
  document_types : List String := []
  deriving DecidableEq, Repr

/-- Modelled from the spec: the planner's `IntentResult` — query type and
response depth kept as their enum value strings, entities, expected component
tags, retrieval strategy, rewritten queries, confidence (missing
`domain/agents/entities.py`). -/
structure IntentResult where
  query_type : String := "factual"
  response_depth : String := "standard"
  entities : IntentEntities := {}
  expected_components : List String := ["text_block"]
  retrieval_strategy : RetrievalStrategy := .single_focus
  rewritten_queries : List String := []
  confidence : ℚ := 1/2
  deriving DecidableEq, Repr

/-- Modelled from the spec: `ExtractionResult` — component type, schema-typed
`extracted_data` record (modelled as an association list so that "non-empty"
is meaningful), source quotes, completeness and warnings (missing
`domain/agents/entities.py`). -/
structure ExtractionResult where
  component_type : String
  extracted_data : List (String × String) := []
  source_quotes : List String := []
  completeness : ℚ := 0
  warnings : List String := []
  deriving DecidableEq, Repr

/-- Modelled from the spec: `is_complete` ⇔ `extracted_data` non-empty AND
`completeness ≥ 0.5` (missing `domain/agents/entities.py`). -/
def ExtractionResult.is_complete (e : ExtractionResult) : Bool :=
  !e.extracted_data.isEmpty && decide ((1:ℚ)/2 ≤ e.completeness)

/-- Modelled from the spec: an unsupported claim
`{claim_text, component_id?, severity ∈ {warning, error}}`; the severity is a
string, as the orchestrator compares it with `== "error"` (missing
`domain/agents/entities.py`). -/
structure UnsupportedClaim where
  claim_text : String
  component_id : Option String := none
  severity : String := "warning"
  deriving DecidableEq, Repr

/-- Modelled from the spec: `VerificationResult` (missing
`domain/agents/entities.py`). -/
structure VerificationResult where
  is_valid : Bool
  unsupported_claims : List UnsupportedClaim := []
  confidence_score : ℚ := 1
  warnings : List String := []
  deriving DecidableEq, Repr

/-! ## Constraint validator — `democrata_server/adapters/llm/constraints.py`

Raw LLM component payloads (Python dicts) are modelled by per-type records
whose fields mirror exactly the keys the code reads.  Reason strings carry the
static part of the code's messages; numeric interpolation inside them is
elided (no claim depends on the reason text). -/

/-- `ConstraintViolation` enum. -/
inductive ConstraintViolation where
  | insufficient_data
  | invalid_structure
  | poor_fit
  deriving DecidableEq, Repr

/-- `ValidationResult` dataclass. -/
structure ValidationResult where
  is_valid : Bool
  violation : Option ConstraintViolation := none
  reason : Option String := none
  suggestion : Option String := none
  deriving DecidableEq, Repr

/-- `ValidationResult.valid()`. -/
def ValidationResult.valid : ValidationResult := { is_valid := true }

/-- `ValidationResult.invalid(violation, reason, suggestion)`. -/
def ValidationResult.invalid (violation : ConstraintViolation) (reason : String)
    (suggestion : Option String := none) : ValidationResult :=
  { is_valid := false, violation := some violation, reason := some reason,
    suggestion := suggestion }

/-- The JSON value found under a chart data point's `"value"` key, classified
by how Python's `float()` treats it: a number (or bool), a string that parses
as a float, a string that does not, or absent/null (`dict.get` returns
`None`). -/
inductive RawValue where
  | num (q : ℚ)
  | numStr (q : ℚ)
  | badStr (s : String)
  | missing
  deriving DecidableEq, Repr

/-- `float(value)` as a partial map (`none` = raises). -/
def RawValue.toFloat? : RawValue → Option ℚ
  | .num q => some q
  | .numStr q => some q
  | .badStr _ => none
  | .missing => none

/-- `float(point.get("value", 0))`: a missing value defaults to `0`.  The
`badStr` case would raise in Python; it is mapped to `0` here and is
unreachable after validation (validation rejects non-coercible values before
any use of this default). -/
def RawValue.floatOrZero : RawValue → ℚ
  | .num q => q
  | .numStr q => q
  | .badStr _ => 0
  | .missing => 0

/-- A raw chart data point (`{label?, value?, category?}`). -/
structure RawChartPoint where
  label : Option String := none
  value : RawValue := .missing
  category : Option String := none
  deriving DecidableEq, Repr

/-- A raw chart series (`{name?, data?}`; `s.get("data", [])`). -/
structure RawSeries where
  name : Option String := none
  data : List RawChartPoint := []
  deriving DecidableEq, Repr

/-- A raw chart component payload: the keys `validate_chart` and the chart
branch of `parse_component` read. -/
structure RawChart where
  chart_type : Option String := none
  series : List RawSeries := []
  title : Option String := none
  x_axis_label : Option String := none
  y_axis_label : Option String := none
  caption : Option String := none
  deriving DecidableEq, Repr

/-- Total data points across all series (`sum(len(s.get("data", [])))`). -/
def RawChart.totalPoints (c : RawChart) : ℕ :=
  (c.series.map (fun s => s.data.length)).sum

/-- The first series' data points
(`series[0] if series else {}` then `.get("data", [])`). -/
def RawChart.firstSeriesPoints (c : RawChart) : List RawChartPoint :=
  ((c.series.head?).map (fun s => s.data)).getD []

/-- `validate_chart` from `adapters/llm/constraints.py`.

The per-point numeric scan in the code reports the first offending point in
iteration order; here the missing-value case and the non-coercible case are
checked as two global scans.  The resulting `violation` (`invalid_structure`)
and validity are identical; only which reason message is produced when both
kinds of offence occur can differ. -/
def validateChart (c : RawChart) : ValidationResult :=
  let chartType := c.chart_type.getD "bar"
  if c.series.isEmpty then
    .invalid .insufficient_data "Chart has no series data" (some "text_block")
  else if c.totalPoints < 2 then
    .invalid .insufficient_data "Chart has too few data points, minimum is 2"
      (some "text_block")
  else if c.series.any (fun s => s.data.any (fun p => p.value = .missing)) then
    .invalid .invalid_structure "Chart data point missing value"
  else if c.series.any (fun s => s.data.any (fun p => p.value.toFloat? = none)) then
    .invalid .invalid_structure "Chart data point has non-numeric value"
  else if chartType = "pie" ∨ chartType = "doughnut" then
    if 7 < c.firstSeriesPoints.length then
      .invalid .poor_fit "Pie chart has too many slices, maximum recommended is 7"
        (some "bar")
    else if c.firstSeriesPoints.any (fun p => p.value.floatOrZero < 0) then
      .invalid .poor_fit "Pie chart cannot display negative values" (some "bar")
    else .valid
  else if chartType = "line" then
    if c.series.any (fun s => s.data.length < 3) then
      .invalid .poor_fit "Line chart series has too few points, minimum is 3"
        (some "bar")
    else .valid
  else .valid

/-- Python truthiness of an optional string (`if i.get("name")`). -/
def optStrTruthy : Option String → Bool
  | some s => s ≠ ""
  | none => false

/-- A raw comparison item (`{name?, description?}`). -/
structure RawComparisonItem where
  name : Option String := none
  description : Option String := none
  deriving DecidableEq, Repr

/-- A raw comparison attribute (`{name?, values?}`). -/
structure RawComparisonAttribute where
  name : Option String := none
  values : List String := []
  deriving DecidableEq, Repr

/-- A raw comparison component payload. -/
structure RawComparison where
  items : List RawComparisonItem := []
  attributes : List RawComparisonAttribute := []
  title : Option String := none
  caption : Option String := none
  deriving DecidableEq, Repr

/-- `validate_comparison` from `adapters/llm/constraints.py`: at least 2
named items, at least 1 attribute with a truthy name and non-empty values.
A mismatch between an attribute's value count and the item count is only
logged as a warning — the result is still `valid()`. -/
def validateComparison (c : RawComparison) : ValidationResult :=
  let validItems := c.items.filter (fun i => optStrTruthy i.name)
  let validAttributes :=
    c.attributes.filter (fun a => optStrTruthy a.name && !a.values.isEmpty)
  if validItems.length < 2 then
    .invalid .insufficient_data "Comparison has too few items, minimum is 2"
      (some "text_block")
  else if validAttributes.length < 1 then
    .invalid .insufficient_data "Comparison has no attributes to compare"
      (some "text_block")
  else .valid

/-! ## Component parsing — `democrata_server/adapters/llm/components.py`

`parse_component` normalises the raw `type`, validates the payload against
the constraints, and on success builds the typed content and wraps it in a
`Component` with a fresh uuid.  The chart and comparison branches are
embedded concretely (the claims concern these two); the enclosing
`Component.create` id is supplied by the caller's counter. -/

/-- The chart branch of `parse_component`, run after validation passed:
coerce `chart_type` (unknown values fall back to `bar`), build the series
dropping any series whose `data` list is empty, and fail if no series
remains. -/
def parseChartContent (c : RawChart) : Option ComponentContent :=
  let chartType := (chartTypeOfString (c.chart_type.getD "bar")).getD .bar
  let series := c.series.filterMap (fun s =>
    let dataPoints := s.data.map (fun d =>
      ChartDataPoint.mk (d.label.getD "") d.value.floatOrZero d.category)
    if dataPoints.isEmpty then none
    else some (ChartSeries.mk (s.name.getD "") dataPoints))
  if series.isEmpty then none
  else
    some (.chart
      { chart_type := chartType, series := series, title := c.title,
        x_axis_label := c.x_axis_label, y_axis_label := c.y_axis_label,
        caption := c.caption })

/-- `parse_component` restricted to a payload whose normalised type is
`"chart"`: validate, then build (returning `none` models both the
validation-failure skip and the defensive empty-series skip). -/
def parseComponentChart (c : RawChart) : Option ComponentContent :=
  if (validateChart c).is_valid then parseChartContent c else none

/-- The comparison branch of `parse_component`, run after validation passed:
keep items with a truthy name and attributes with a truthy name and non-empty
values; fail if either list ends up empty. -/
def parseComparisonContent (c : RawComparison) : Option ComponentContent :=
  let items := (c.items.filter (fun i => optStrTruthy i.name)).map (fun i =>
    ComparisonItem.mk (i.name.getD "") i.description)
  let attributes :=
    (c.attributes.filter (fun a => optStrTruthy a.name && !a.values.isEmpty)).map
      (fun a => ComparisonAttribute.mk (a.name.getD "") a.values)
  if items.isEmpty ∨ attributes.isEmpty then none
  else
    some (.comparison
      { items := items, attributes := attributes, title := c.title,
        caption := c.caption })

/-- `parse_component` restricted to a payload whose normalised type is
`"comparison"`. -/
def parseComponentComparison (c : RawComparison) : Option ComponentContent :=
  if (validateComparison c).is_valid then parseComparisonContent c else none

/-! ## Intent-driven retriever — `polly_pipeline_server/adapters/agents/retriever.py`

The embedder and the vector store are oracles (`embed : String → V`,
`search : V → ℕ → List Chunk`; the intent-derived filters are folded into the
behaviour of `search`).  The multi-entity strategy additionally returns the
log of queries passed to `embed_single`, so that the claim about embedder
invocations is statable. -/

/-- `_search_single`: embed one rewritten query and search with `k =
default_top_k // 2`; also report the embed-call log of this sub-task. -/
def searchSingle {V : Type} (embed : String → V) (search : V → ℕ → List Chunk)
    (defaultTopK : ℕ) (q : String) : List Chunk × List String :=
  (search (embed q) (defaultTopK / 2), [q])

/-- The rewritten-query list actually fanned out:
`rewritten_queries` or `[query]` when empty. -/
def effectiveQueries (query : String) (rewritten : List String) : List String :=
  if rewritten.isEmpty then [query] else rewritten

/-- The merge-and-dedup loops of `_retrieve_multi_entity`: iterate the
per-query result lists in order with one shared `seen_ids` set, appending each
chunk whose id has not been seen. -/
def mergeDedupFold (results : List (List Chunk)) : List Chunk :=
  (results.foldl
    (fun acc queryChunks =>
      queryChunks.foldl
        (fun acc2 ch =>
          if ch.id ∈ acc2.2 then acc2 else (acc2.1 ++ [ch], ch.id :: acc2.2))
        acc)
    (([], []) : List Chunk × List String)).1

/-- Specification-level first-occurrence dedup by chunk id. -/
def dedupSeen (seen : List String) : List Chunk → List Chunk
  | [] => []
  | c :: rest =>
    if c.id ∈ seen then dedupSeen seen rest
    else c :: dedupSeen (c.id :: seen) rest

/-- First-occurrence dedup by chunk id over a flat list. -/
def dedupByIdFirst (l : List Chunk) : List Chunk := dedupSeen [] l

/-- `_retrieve_multi_entity`: fan out `_search_single` over the effective
rewritten queries, merge with first-occurrence dedup, cap at
`default_top_k * 2`, compute per-query coverage `returned / default_top_k`,
judge sufficiency.  Second result: the embed-call log (the sub-searches run
concurrently with per-task error isolation; errors are not modelled).  -/
def retrieveMultiEntity {V : Type} (embed : String → V) (search : V → ℕ → List Chunk)
    (defaultTopK minChunksForSufficiency : ℕ) (query : String)
    (rewritten : List String) : RetrievalResult × List String :=
  let queries := effectiveQueries query rewritten
  let subResults := queries.map (fun q => searchSingle embed search defaultTopK q)
  let results := subResults.map (fun r => r.1)
  let embedLog := (subResults.map (fun r => r.2)).flatten
  let coverage := (queries.zip results).map (fun qr =>
    (qr.1, (qr.2.length : ℚ) / (defaultTopK : ℚ)))
  let chunks := (mergeDedupFold results).take (defaultTopK * 2)
  let sufficient := decide (minChunksForSufficiency ≤ chunks.length)
  ({ chunks := chunks, strategy_used := "multi_entity", coverage := coverage,
     is_sufficient := sufficient,
     warnings := if sufficient then [] else ["Limited coverage for some entities"] },
   embedLog)

/-- The sort key of `_retrieve_chronological`:
`c.metadata.get("date", "9999-99-99")`. -/
def chunkDateKey (c : Chunk) : String :=
  (metaGet c.metadata "date").getD "9999-99-99"

/-- `_retrieve_chronological` applied to the chunks returned by the top-k
search: Python's stable `sorted` by the date key is modelled by the stable
`List.mergeSort`. -/
def retrieveChronological (chunks : List Chunk)
    (minChunksForSufficiency : ℕ) : RetrievalResult :=
  let sortedChunks := chunks.mergeSort (fun a b => chunkDateKey a ≤ chunkDateKey b)
  let sufficient := decide (minChunksForSufficiency ≤ sortedChunks.length)
  { chunks := sortedChunks, strategy_used := "chronological",
    is_sufficient := sufficient,
    warnings := if sufficient then [] else ["Few chronological events found"] }

/-! ## Composer — `polly_pipeline_server/adapters/agents/composer.py`

`_build_layout_from_data` is parametrised by the component parser
(`parse_component`): a raw payload either yields typed content plus the
envelope `size`, or is skipped.  Fresh component uuids are modelled by a
natural counter threaded through. -/

/-- One raw section of the composer LLM's JSON
(`{title?, layout?, components: [...]}`). -/
structure RawSection (γ : Type) where
  title : Option String := none
  layout : Option String := none
  components : List γ := []

/-- The composer LLM's parsed JSON object
(`{title?, subtitle?, sections: [...]}`). -/
structure RawLayoutData (γ : Type) where
  title : Option String := none
  subtitle : Option String := none
  sections : List (RawSection γ) := []

/-- The inner loop of `_build_layout_from_data` over one section's raw
components: parse each, keep the parsed ones (with fresh ids from the
counter) and record their ids. Returns (components, component_ids, next id). -/
def buildSectionComponents {γ : Type} (parseC : γ → Option (ComponentContent × Option String)) :
    List γ → ℕ → List Component × List ℕ × ℕ
  | [], n => ([], [], n)
  | c :: rest, n =>
    match parseC c with
    | none => buildSectionComponents parseC rest n
    | some (content, size) =>
      let step := buildSectionComponents parseC rest (n + 1)
      (⟨n, content, size⟩ :: step.1, n :: step.2.1, step.2.2)

/-- The outer loop of `_build_layout_from_data` over sections: build each
section's components; a section whose `component_ids` list ends up empty is
skipped (its title is only logged). Returns (components, sections, next
id). -/
def buildSections {γ : Type} (parseC : γ → Option (ComponentContent × Option String)) :
    List (RawSection γ) → ℕ → List Component × List Section × ℕ
  | [], n => ([], [], n)
  | sec :: rest, n =>
    let built := buildSectionComponents parseC sec.components n
    let restBuilt := buildSections parseC rest built.2.2
    (built.1 ++ restBuilt.1,
     if built.2.1.isEmpty then restBuilt.2.1
     else ⟨built.2.1, sec.title, sec.layout⟩ :: restBuilt.2.1,
     restBuilt.2.2)

/-- `_build_layout_from_data`. -/
def buildLayoutFromData {γ : Type} (parseC : γ → Option (ComponentContent × Option String))
    (d : RawLayoutData γ) (n : ℕ) : Layout × List Component × ℕ :=
  let built := buildSections parseC d.sections n
  (⟨built.2.1, d.title, d.subtitle⟩, built.1, built.2.2)

/-- `_add_extraction_warnings`: when any extraction has completeness < 0.5,
insert an info notice listing the affected component types at index
`min(1, len(components))`. -/
def addExtractionWarnings (components : List Component)
    (extractions : List ExtractionResult) (n : ℕ) : List Component :=
  let lowCompleteness :=
    (extractions.filter (fun e => e.completeness < 1/2)).map
      (fun e => e.component_type)
  if lowCompleteness.isEmpty then components
  else
    let notice : Component :=
      ⟨n, .notice
        { message := "Limited data available for: "
            ++ String.intercalate ", " lowCompleteness
            ++ ". Some information may be incomplete."
          level := .info, title := some "Data Availability" }, none⟩
    components.insertIdx (min 1 components.length) notice

/-- The composer's `_insufficient_data_response` (no complete extraction):
a warning notice plus an explanatory text block in one section. -/
def composerInsufficientResponse (query : String)
    (extractions : List ExtractionResult) (n : ℕ) : Layout × List Component :=
  let warnings := (extractions.map (fun e => e.warnings)).flatten
  let warningText :=
    if warnings.isEmpty then "No relevant information found in the available documents."
    else String.intercalate "; " warnings
  let notice : Component :=
    ⟨n, .notice
      { message := "Unable to answer this query: " ++ warningText,
        level := .warning, title := some "Insufficient Information" }, none⟩
  let text : Component :=
    ⟨n + 1, .textBlock
      { content := "The query '" ++ query
          ++ "' could not be answered with the available information. Try refining your search or using different keywords." }, none⟩
  (⟨[⟨[notice.id, text.id], none, none⟩], some "Unable to Answer Query",
      some "Insufficient information available"⟩,
   [notice, text])

/-- `_fallback_layout` (JSON parse failure): a single text block holding the
raw LLM content. -/
def composerFallbackLayout (content : String) (n : ℕ) : Layout × List Component :=
  let text : Component := ⟨n, .textBlock { content := content }, none⟩
  (⟨[⟨[text.id], none, none⟩], none, none⟩, [text])

/-- `_fallback_response` (LLM call failed): a single apologetic text block. -/
def composerFallbackResponse (n : ℕ) : Layout × List Component :=
  let text : Component :=
    ⟨n, .textBlock
      { content := "An error occurred while generating the response. Please try again." },
     none⟩
  (⟨[⟨[text.id], none, none⟩], some "Error", none⟩, [text])

/-- The observable outcome of the composer's LLM interaction. -/
inductive ComposerOutcome (γ : Type) where
  | parsed (d : RawLayoutData γ)
  | parseFailure (rawContent : String)
  | llmFailure

/-- `compose`, with the LLM interaction abstracted into a `ComposerOutcome`:
if no extraction is complete, the insufficient-data response is produced
without an LLM call; otherwise the LLM outcome is turned into a layout and
component list and `_add_extraction_warnings` runs on the components — also
on the parse-failure fallback layout's components, since `_parse_response`
returns the fallback into the same flow (composer.py lines 77-80).  Only the
exception path (`_fallback_response`, reached from the `except` handler)
skips the warning step. -/
def composePure {γ : Type} (parseC : γ → Option (ComponentContent × Option String))
    (query : String) (extractions : List ExtractionResult)
    (outcome : ComposerOutcome γ) (n : ℕ) : Layout × List Component :=
  let validExtractions := extractions.filter (fun e => e.is_complete)
  if validExtractions.isEmpty then composerInsufficientResponse query extractions n
  else
    match outcome with
    | .parsed d =>
      let built := buildLayoutFromData parseC d n
      (built.1, addExtractionWarnings built.2.1 extractions built.2.2)
    | .parseFailure rawContent =>
      let built := composerFallbackLayout rawContent n
      (built.1, addExtractionWarnings built.2 extractions (n + 1))
    | .llmFailure => composerFallbackResponse n

/-! ## Pipeline orchestrator — `democrata_server/domain/rag/use_cases.py`

`ExecuteQuery.execute` with all collaborators abstracted into a
`PipelineEnv`: the cache lookup result, the planner's intent, the retrieval
result, the composer's output, and the verifier's verdict.  The calls made to
collaborators are recorded in an event log (planner, retriever, one extractor
call per expected component, composer, verifier, cache write with the stored
value).  Exceptions (and hence `_error_response`) and wall-clock timing are
not modelled. -/

/-- `ExecuteQueryResult` dataclass. -/
structure ExecuteQueryResult where
  result : RAGResult
  cost : CostBreakdown
  deriving DecidableEq, Repr

/-- Observable collaborator calls made by one `execute` run. -/
inductive PipelineEvent where
  | plannerCall
  | retrieverCall
  | extractCall (componentType : String)
  | composeCall
  | verifyCall
  | cacheWrite (stored : RAGResult)
  deriving DecidableEq, Repr

/-- The composer's token-usage record (`{input_tokens, output_tokens, model}`). -/
structure TokenUsage where
  input_tokens : ℕ := 0
  output_tokens : ℕ := 0
  model : String := "unknown"
  deriving DecidableEq, Repr

/-- The environment a single `execute` run observes. -/
structure PipelineEnv where
  cached : Option RAGResult
  intent : IntentResult
  retrieval : RetrievalResult
  extract : String → ExtractionResult
  composedLayout : Layout
  composedComponents : List Component
  composedUsage : TokenUsage
  verifierConfigured : Bool
  verification : VerificationResult
  costMargin : ℚ := 2/5

/-- `_insufficient_data_response`: warning notice + suggestion text block.
(The orchestrator overwrites the metadata right after calling this.) -/
def insufficientDataResponse (q : Query) (warnings : List String) (n : ℕ) : RAGResult :=
  let warningText :=
    if warnings.isEmpty then "Limited relevant information found."
    else String.intercalate "; " warnings
  let notice : Component :=
    ⟨n, .notice
      { message := "Unable to fully answer this query: " ++ warningText,
        level := .warning, title := some "Limited Information" }, none⟩
  let text : Component :=
    ⟨n + 1, .textBlock
      { content := "The query '" ++ q.text
          ++ "' could not be fully answered. Try:\n- Using different keywords\n- Narrowing the date range\n- Specifying particular politicians or parties" },
     none⟩
  { layout := ⟨[⟨[notice.id, text.id], none, none⟩], some "Unable to Answer Query",
      some "Insufficient information available"⟩,
    components := [notice, text],
    metadata := ⟨0, 0, 0, "none"⟩,
    cached := false }

/-- `_filter_unsupported_claims`: never removes components; when the
verification has unsupported claims and at least one has severity `"error"`,
insert one warning notice at index `min(1, len(components))`. -/
def filterUnsupportedClaims (components : List Component)
    (verification : VerificationResult) (n : ℕ) : List Component :=
  if verification.unsupported_claims.isEmpty then components
  else
    let errors := verification.unsupported_claims.filter (fun c => c.severity = "error")
    if errors.isEmpty then components
    else
      let notice : Component :=
        ⟨n, .notice
          { message := "Some information could not be fully verified against source documents. Please verify critical facts independently.",
            level := .warning, title := some "Verification Warning" }, none⟩
      components.insertIdx (min 1 components.length) notice

/-- `dict.get(key) or None` (empty string coerced to `None`). -/
def metaGetOrNone (m : List (String × String)) (key : String) : Option String :=
  match metaGet m key with
  | some "" => none
  | v => v

/-- `_aggregate_sources`: one `SourceReference` per distinct `document_id`,
first occurrence wins. -/
def aggregateSources (chunks : List Chunk) (seenDocs : List String := []) :
    List SourceReference :=
  match chunks with
  | [] => []
  | c :: rest =>
    if c.document_id ∈ seenDocs then aggregateSources rest seenDocs
    else
      { document_id := c.document_id,
        source_name := (metaGet c.metadata "source_name").getD "Unknown",
        source_url := metaGetOrNone c.metadata "source_url",
        source_date := metaGetOrNone c.metadata "source_date" }
        :: aggregateSources rest (c.document_id :: seenDocs)

/-- Python `str.split()` (split on whitespace runs, dropping empties). -/
def pySplitWhitespace (s : String) : List String :=
  (s.split Char.isWhitespace).filter (fun t => t ≠ "")

/-- `self.verifier and context_texts`: the verifier is configured and the
retrieved context is non-empty. -/
def verifierRuns (env : PipelineEnv) : Bool :=
  env.verifierConfigured && !env.retrieval.context_texts.isEmpty

/-- The final components list of the success path: when the verifier ran and
found the response invalid, `_filter_unsupported_claims` is applied. -/
def successComponents (env : PipelineEnv) (n : ℕ) : List Component :=
  if verifierRuns env && !env.verification.is_valid then
    filterUnsupportedClaims env.composedComponents env.verification n
  else env.composedComponents

/-- The success-path cost: `embedding_tokens = len(query.text.split()) *
len(rewritten_queries)`, composer token counts, `vector_queries =
len(rewritten_queries)` for multi-entity else 1. -/
def successCost (env : PipelineEnv) (q : Query) : CostBreakdown :=
  CostBreakdown.calculate
    ((pySplitWhitespace q.text).length * env.intent.rewritten_queries.length)
    env.composedUsage.input_tokens
    env.composedUsage.output_tokens
    (if env.intent.retrieval_strategy = .multi_entity then
      env.intent.rewritten_queries.length
    else 1)
    env.costMargin

/-- The `RAGResult` the success path builds (and stores in the cache):
composed layout, possibly-annotated components, metadata with distinct
document count and chunk count, aggregated sources, `cached = False`, and
the computed cost attached. -/
def successResult (env : PipelineEnv) (q : Query) (n : ℕ) : RAGResult :=
  { layout := env.composedLayout
    components := successComponents env n
    metadata :=
      ⟨((env.retrieval.chunks.map (fun c => c.document_id)).eraseDups).length,
       env.retrieval.chunks.length, 0, env.composedUsage.model⟩
    sources := aggregateSources env.retrieval.chunks
    cached := false
    cost := some (successCost env q) }

/-- `ExecuteQuery.execute`, as a pure function of the environment.  `n` seeds
the fresh-uuid counter.  The returned event list records the collaborator
calls in order. -/
def executeQuery (env : PipelineEnv) (q : Query) (n : ℕ) :
    ExecuteQueryResult × List PipelineEvent :=
  match env.cached with
  | some cachedResult => (⟨cachedResult, CostBreakdown.zero⟩, [])
  | none =>
    if !env.retrieval.is_sufficient then
      let base := insufficientDataResponse q env.retrieval.warnings n
      let result :=
        { base with metadata := ⟨0, env.retrieval.chunks.length, 0, "unknown"⟩ }
      (⟨result, CostBreakdown.zero⟩, [.plannerCall, .retrieverCall])
    else
      let _extractions := env.intent.expected_components.map env.extract
      (⟨successResult env q n, successCost env q⟩,
       [.plannerCall, .retrieverCall]
         ++ env.intent.expected_components.map .extractCall
         ++ [.composeCall]
         ++ (if verifierRuns env then [.verifyCall] else [])
         ++ [.cacheWrite (successResult env q n)])

/-! ## Concrete fixtures used by witnesses and counterexamples -/

/-- Chunk `x` of the multi-entity dedup example. -/
def chunkX : Chunk := { id := "x", document_id := "doc-x", text := "text x" }

/-- Chunk `y` of the multi-entity dedup example. -/
def chunkY : Chunk := { id := "y", document_id := "doc-y", text := "text y" }

/-- Chunk `z` of the multi-entity dedup example. -/
def chunkZ : Chunk := { id := "z", document_id := "doc-z", text := "text z" }

/-- Vector store of the multi-entity example: query `A` returns `[x, y]`,
query `B` returns `[y, z]` (embedding vectors modelled as the query strings
themselves). -/
def storeAB : String → ℕ → List Chunk := fun v _ =>
  if v = "A" then [chunkX, chunkY] else if v = "B" then [chunkY, chunkZ] else []

/-- Chunk dated `2024-03`. -/
def chunkMar : Chunk :=
  { id := "c-mar", document_id := "d1", text := "march", metadata := [("date", "2024-03")] }

/-- Chunk dated `2024-01`. -/
def chunkJan : Chunk :=
  { id := "c-jan", document_id := "d2", text := "january", metadata := [("date", "2024-01")] }

/-- Chunk with no `date` metadata. -/
def chunkNoDate : Chunk :=
  { id := "c-none", document_id := "d3", text := "undated" }

/-- Chunk dated `2024-02`. -/
def chunkFeb : Chunk :=
  { id := "c-feb", document_id := "d4", text := "february", metadata := [("date", "2024-02")] }

/-- A pie chart whose first series is clean but whose second series contains
a negative value: the constraint validator only inspects the first series. -/
def pieNegChart : RawChart :=
  { chart_type := some "pie",
    series :=
      [{ name := some "s1",
         data := [{ label := some "a", value := .num 1 },
                  { label := some "b", value := .num 2 }] },
       { name := some "s2",
         data := [{ label := some "c", value := .num (-5) }] }] }

/-- A pie chart with 9 slices in its first series (all values numeric). -/
def pieNineSlices : RawChart :=
  { chart_type := some "pie",
    series :=
      [{ name := some "s",
         data := (List.range 9).map (fun k =>
           { label := some "l", value := .num (k : ℚ) }) }] }

/-- A chart with an unrecognised `chart_type` but valid series. -/
def scatterChart : RawChart :=
  { chart_type := some "scatter",
    series :=
      [{ name := some "s",
         data := [{ label := some "a", value := .num 1 },
                  { label := some "b", value := .num 2 }] }] }

/-- A comparison with two named items and one attribute carrying three
values: the parallel-shape `len(values) == len(items)` is violated. -/
def mismatchComparison : RawComparison :=
  { items := [{ name := some "A" }, { name := some "B" }],
    attributes := [{ name := some "x", values := ["1", "2", "3"] }] }

/-- The typed comparison `parse_component` produces from
`mismatchComparison`. -/
def mismatchParsed : Comparison :=
  { items := [{ name := "A" }, { name := "B" }],
    attributes := [{ name := "x", values := ["1", "2", "3"] }] }

/-- A sample query. -/
def sampleQuery : Query := { text := "what is a money bill?" }

/-- A canned result, stored in the cache exactly as the pipeline stores
results (in particular with `cached := false`). -/
def storedResult : RAGResult :=
  { layout := { sections := [] }, components := [],
    metadata := ⟨0, 0, 0, "gpt-4o"⟩, cached := false }

/-- A trivial extractor oracle. -/
def emptyExtract : String → ExtractionResult := fun t => { component_type := t }

/-- Environment whose cache lookup hits `storedResult`. -/
def cacheHitEnv : PipelineEnv :=
  { cached := some storedResult, intent := {},
    retrieval := { chunks := [], strategy_used := "single_focus" },
    extract := emptyExtract, composedLayout := { sections := [] },
    composedComponents := [], composedUsage := {},
    verifierConfigured := false, verification := { is_valid := true } }

/-- Environment for a cache miss whose retrieval is insufficient but
returned one chunk. -/
def insufEnv : PipelineEnv :=
  { cached := none, intent := {},
    retrieval := { chunks := [chunkX], strategy_used := "single_focus",
                   is_sufficient := false,
                   warnings := ["Few relevant documents found"] },
    extract := emptyExtract, composedLayout := { sections := [] },
    composedComponents := [], composedUsage := {},
    verifierConfigured := false, verification := { is_valid := true } }

/-- A sample composed component. -/
def sampleTextComponent : Component :=
  { id := 100, content := .textBlock { content := "hello" } }

/-- Environment in which the verifier reports `is_valid = true` while also
returning an `error`-severity unsupported claim. -/
def verifIgnoredEnv : PipelineEnv :=
  { cached := none, intent := {},
    retrieval := { chunks := [chunkX], strategy_used := "single_focus",
                   is_sufficient := true },
    extract := emptyExtract, composedLayout := { sections := [] },
    composedComponents := [sampleTextComponent], composedUsage := {},
    verifierConfigured := true,
    verification := { is_valid := true,
                      unsupported_claims := [{ claim_text := "c", severity := "error" }] } }

/-- Environment in which the verifier reports `is_valid = false` with an
`error`-severity unsupported claim. -/
def verifErrorEnv : PipelineEnv :=
  { cached := none, intent := {},
    retrieval := { chunks := [chunkX], strategy_used := "single_focus",
                   is_sufficient := true },
    extract := emptyExtract, composedLayout := { sections := [] },
    composedComponents := [sampleTextComponent], composedUsage := {},
    verifierConfigured := true,
    verification := { is_valid := false,
                      unsupported_claims := [{ claim_text := "c", severity := "error" }] } }

/-! ## Helper lemmas -/

theorem floor_le_roundHalfEven (q : ℚ) : ⌊q⌋ ≤ roundHalfEven q := by
  unfold roundHalfEven
  split_ifs <;> omega

theorem roundHalfEven_le_floor_add_one (q : ℚ) : roundHalfEven q ≤ ⌊q⌋ + 1 := by
  unfold roundHalfEven
  split_ifs <;> omega

theorem roundHalfEven_mono {x y : ℚ} (h : x ≤ y) :
    roundHalfEven x ≤ roundHalfEven y := by
  have hfl : ⌊x⌋ ≤ ⌊y⌋ := Int.floor_mono h
  rcases lt_or_eq_of_le hfl with hlt | heq
  · calc roundHalfEven x ≤ ⌊x⌋ + 1 := roundHalfEven_le_floor_add_one x
      _ ≤ ⌊y⌋ := by omega
      _ ≤ roundHalfEven y := floor_le_roundHalfEven y
  · have hcast : ((⌊x⌋ : ℤ) : ℚ) = ((⌊y⌋ : ℤ) : ℚ) := by exact_mod_cast heq
    have hfr : x - ((⌊x⌋ : ℤ) : ℚ) ≤ y - ((⌊y⌋ : ℤ) : ℚ) := by
      rw [hcast]; linarith
    unfold roundHalfEven
    split_ifs <;> first
      | omega
      | linarith

theorem total_cents_calculate (e i o v : ℕ) (m : ℚ) :
    (CostBreakdown.calculate e i o v m).total_cents =
      (if 0 < costSubtotal e i o v + costSubtotal e i o v * m then
        roundHalfEven (costSubtotal e i o v + costSubtotal e i o v * m)
      else 0) :=
  rfl

theorem costSubtotal_nonneg (e i o v : ℕ) : 0 ≤ costSubtotal e i o v := by
  unfold costSubtotal
  positivity

/-! ## C5 — cost monotonicity in the margin -/

/-- C5 counterexample: a single vector query has a positive cost subtotal
(0.01 cents), yet both `calculate(margin=0.4)` and `calculate(margin=0)`
round the total to the same 0 cents, so the strict inequality
`total_cents(0.4) > total_cents(0)` fails. -/
theorem cost_margin_strict_counterexample :
    0 < costSubtotal 0 0 0 1 ∧
      (CostBreakdown.calculate 0 0 0 1 (2/5)).total_cents = 0 ∧
      (CostBreakdown.calculate 0 0 0 1 0).total_cents = 0 := by
  refine ⟨by norm_num [costSubtotal], ?_, ?_⟩ <;>
    · rw [total_cents_calculate]
      norm_num [costSubtotal, roundHalfEven]

/-- C5 (amended): for all non-negative token and query counts,
`CostBreakdown.calculate` with margin 0.4 yields a `total_cents` at least —
but not necessarily strictly greater than — that with margin 0 on the same
inputs; strictness can fail when both totals round to the same cent. -/
theorem cost_margin_total_cents_le (e i o v : ℕ) :
    (CostBreakdown.calculate e i o v 0).total_cents ≤
      (CostBreakdown.calculate e i o v (2/5)).total_cents := by
  rw [total_cents_calculate, total_cents_calculate]
  have hS : 0 ≤ costSubtotal e i o v := costSubtotal_nonneg e i o v
  set S := costSubtotal e i o v with hSdef
  by_cases hpos : 0 < S
  · rw [if_pos (by linarith), if_pos (by nlinarith)]
    exact roundHalfEven_mono (by nlinarith)
  · have hzero : S = 0 := le_antisymm (not_lt.mp hpos) hS
    rw [hzero]
    norm_num

theorem flatten_map_singleton {α : Type} (l : List α) :
    (l.map (fun a => [a])).flatten = l := by
  induction l with
  | nil => rfl
  | cons a t ih => simp [ih]

theorem dedupSeen_append (seen : List String) (l₁ l₂ : List Chunk) :
    dedupSeen seen (l₁ ++ l₂) =
      dedupSeen seen l₁ ++
        dedupSeen (((dedupSeen seen l₁).map (fun c => c.id)).reverse ++ seen) l₂ := by
  induction l₁ generalizing seen with
  | nil => simp [dedupSeen]
  | cons c rest ih =>
    by_cases hmem : c.id ∈ seen
    · simp only [List.cons_append, dedupSeen, if_pos hmem]
      exact ih seen
    · simp only [List.cons_append, dedupSeen, if_neg hmem, List.append_eq]
      rw [ih (c.id :: seen)]
      simp [List.append_assoc]

theorem foldl_dedup_step (l : List Chunk) (a : List Chunk) (seen : List String) :
    l.foldl
        (fun acc2 ch => if ch.id ∈ acc2.2 then acc2 else (acc2.1 ++ [ch], ch.id :: acc2.2))
        (a, seen)
      = (a ++ dedupSeen seen l,
         ((dedupSeen seen l).map (fun c => c.id)).reverse ++ seen) := by
  induction l generalizing a seen with
  | nil => simp [dedupSeen]
  | cons c rest ih =>
    rw [List.foldl_cons]
    dsimp only
    by_cases hmem : c.id ∈ seen
    · rw [if_pos hmem, ih a seen]
      simp [dedupSeen, hmem]
    · rw [if_neg hmem, ih (a ++ [c]) (c.id :: seen)]
      simp [dedupSeen, hmem, List.append_assoc]

theorem foldl_dedup_outer (rs : List (List Chunk)) (a : List Chunk) (seen : List String) :
    rs.foldl
        (fun acc queryChunks =>
          queryChunks.foldl
            (fun acc2 ch => if ch.id ∈ acc2.2 then acc2 else (acc2.1 ++ [ch], ch.id :: acc2.2))
            acc)
        (a, seen)
      = (a ++ dedupSeen seen rs.flatten,
         ((dedupSeen seen rs.flatten).map (fun c => c.id)).reverse ++ seen) := by
  induction rs generalizing a seen with
  | nil => simp [dedupSeen]
  | cons l rest ih =>
    rw [List.foldl_cons, foldl_dedup_step, ih, List.flatten_cons,
      dedupSeen_append seen l rest.flatten]
    simp [List.append_assoc, List.map_append, List.reverse_append]

theorem mergeDedupFold_eq_dedupByIdFirst (rs : List (List Chunk)) :
    mergeDedupFold rs = dedupByIdFirst rs.flatten := by
  unfold mergeDedupFold dedupByIdFirst
  rw [foldl_dedup_outer]
  simp

/-! ## C3 — multi-entity fan-out, merge, dedup -/

/-- C3: for every multi-entity retrieval, the returned chunk list is the
first-occurrence id-dedup of the concatenation of the per-query result lists
(in query order), truncated to `2 * default_top_k`; the embedder is invoked
exactly once per effective rewritten query; and on the concrete `[A, B]`
example with per-query results `[x, y]` and `[y, z]` the output is exactly
`[x, y, z]` with two embed calls. -/
theorem multi_entity_merge_dedup :
    (∀ (V : Type) (embed : String → V) (search : V → ℕ → List Chunk)
        (defaultTopK minSuf : ℕ) (query : String) (rewritten : List String),
        (retrieveMultiEntity embed search defaultTopK minSuf query rewritten).1.chunks
            = (dedupByIdFirst (((effectiveQueries query rewritten).map
                (fun qq => search (embed qq) (defaultTopK / 2))).flatten)).take
                (defaultTopK * 2)
          ∧ (retrieveMultiEntity embed search defaultTopK minSuf query rewritten).2
              = effectiveQueries query rewritten) ∧
      (retrieveMultiEntity (V := String) (fun s => s) storeAB 10 3 "base" ["A", "B"]).1.chunks
          = [chunkX, chunkY, chunkZ] ∧
      (retrieveMultiEntity (V := String) (fun s => s) storeAB 10 3 "base" ["A", "B"]).2
          = ["A", "B"] := by
  refine ⟨fun V embed search defaultTopK minSuf query rewritten => ⟨?_, ?_⟩, ?_, ?_⟩
  · show (mergeDedupFold _).take _ = _
    rw [mergeDedupFold_eq_dedupByIdFirst]
    simp [searchSingle, Function.comp_def]
  · show ((List.map _ _).map _).flatten = _
    simp only [searchSingle, List.map_map, Function.comp_def]
    exact flatten_map_singleton _
  · rfl
  · rfl

/-! ## C8 — chronological sort -/

unseal List.mergeSort List.merge String.ltb in
/-- C8: every chronological retrieval returns the retrieved chunks sorted
ascending (stably) by `metadata["date"]` under string ordering, with missing
dates taking the sentinel `"9999-99-99"`: the output is pairwise ordered by
the date key and is a permutation of the input, and on the concrete
`{2024-03, 2024-01, (missing), 2024-02}` example the order is
`[2024-01, 2024-02, 2024-03, missing]` with the undated chunk last. -/
theorem chronological_sort :
    (∀ (chunks : List Chunk) (minSuf : ℕ),
        List.Pairwise (fun a b => chunkDateKey a ≤ chunkDateKey b)
          (retrieveChronological chunks minSuf).chunks) ∧
      (∀ (chunks : List Chunk) (minSuf : ℕ),
        (retrieveChronological chunks minSuf).chunks.Perm chunks) ∧
      (retrieveChronological [chunkMar, chunkJan, chunkNoDate, chunkFeb] 3).chunks
        = [chunkJan, chunkFeb, chunkMar, chunkNoDate] := by
  refine ⟨fun chunks minSuf => ?_, fun chunks minSuf => ?_, ?_⟩
  · show List.Pairwise _ (chunks.mergeSort _)
    have h := @List.sorted_mergeSort Chunk
      (fun a b : Chunk => decide (chunkDateKey a ≤ chunkDateKey b))
      (fun a b c h1 h2 => by
        simp only [decide_eq_true_eq] at h1 h2 ⊢
        exact le_trans h1 h2)
      (fun a b => by
        simp only [Bool.or_eq_true, decide_eq_true_eq]
        exact le_total _ _)
      chunks
    exact h.imp (fun hab => by simpa using hab)
  · show (chunks.mergeSort _).Perm chunks
    exact List.mergeSort_perm chunks _
  · rfl

theorem sublist_insertIdx {α : Type} (l : List α) (i : ℕ) (x : α) :
    l.Sublist (l.insertIdx i x) := by
  induction l generalizing i with
  | nil =>
    cases i with
    | zero => simp
    | succ j => simp
  | cons a t ih =>
    cases i with
    | zero =>
      rw [List.insertIdx_zero]
      exact List.Sublist.cons x (List.Sublist.refl _)
    | succ j =>
      rw [List.insertIdx_succ_cons]
      exact List.Sublist.cons₂ a (ih j)

theorem mem_addExtractionWarnings {c : Component} {components : List Component}
    {extractions : List ExtractionResult} {n : ℕ} (h : c ∈ components) :
    c ∈ addExtractionWarnings components extractions n := by
  simp only [addExtractionWarnings]
  split
  · exact h
  · exact (sublist_insertIdx components _ _).mem h

theorem buildSectionComponents_cons {γ : Type}
    (parseC : γ → Option (ComponentContent × Option String)) (c : γ) (rest : List γ) (n : ℕ) :
    buildSectionComponents parseC (c :: rest) n =
      match parseC c with
      | none => buildSectionComponents parseC rest n
      | some (content, size) =>
        let step := buildSectionComponents parseC rest (n + 1)
        (⟨n, content, size⟩ :: step.1, n :: step.2.1, step.2.2) :=
  rfl

theorem buildSectionComponents_ids {γ : Type}
    (parseC : γ → Option (ComponentContent × Option String)) (raw : List γ) (n : ℕ) :
    (buildSectionComponents parseC raw n).2.1
      = (buildSectionComponents parseC raw n).1.map (fun c => c.id) := by
  induction raw generalizing n with
  | nil => rfl
  | cons c rest ih =>
    rw [buildSectionComponents_cons]
    cases h : parseC c with
    | none => exact ih n
    | some contentSize =>
      obtain ⟨content, size⟩ := contentSize
      dsimp only
      rw [ih (n + 1)]
      simp only [List.map_cons]

theorem buildSections_invariant {γ : Type}
    (parseC : γ → Option (ComponentContent × Option String))
    (ss : List (RawSection γ)) (n : ℕ) :
    ∀ sec ∈ (buildSections parseC ss n).2.1,
      sec.component_ids ≠ [] ∧
        ∀ i ∈ sec.component_ids,
          ∃ comp ∈ (buildSections parseC ss n).1, comp.id = i := by
  induction ss generalizing n with
  | nil => intro sec h; simp [buildSections] at h
  | cons s rest ih =>
    intro sec hsec
    simp only [buildSections] at hsec ⊢
    by_cases hids : (buildSectionComponents parseC s.components n).2.1.isEmpty
    · rw [if_pos hids] at hsec
      obtain ⟨hne, hmem⟩ :=
        ih (buildSectionComponents parseC s.components n).2.2 sec hsec
      refine ⟨hne, fun i hi => ?_⟩
      obtain ⟨comp, hcomp, hid⟩ := hmem i hi
      exact ⟨comp, List.mem_append_right _ hcomp, hid⟩
    · rw [if_neg hids] at hsec
      rcases List.mem_cons.mp hsec with hseceq | hsecrest
      · subst hseceq
        refine ⟨fun hnil => hids ?_, fun i hi => ?_⟩
        · have hb : (buildSectionComponents parseC s.components n).2.1 = [] := hnil
          rw [hb]
          rfl
        simp only at hi
        rw [buildSectionComponents_ids] at hi
        obtain ⟨comp, hcomp, hid⟩ := List.mem_map.mp hi
        exact ⟨comp, List.mem_append_left _ hcomp, hid⟩
      · obtain ⟨hne, hmem⟩ :=
          ih (buildSectionComponents parseC s.components n).2.2 sec hsecrest
        refine ⟨hne, fun i hi => ?_⟩
        obtain ⟨comp, hcomp, hid⟩ := hmem i hi
        exact ⟨comp, List.mem_append_right _ hcomp, hid⟩

/-! ## C7 — composer layout invariant -/

/-- C7: in every layout the composer produces, each `component_ids` entry of
each section is the id of a component present in the returned components
list, and sections all of whose raw components failed validation are dropped,
so no section with an empty `component_ids` list appears. -/
theorem composer_layout_invariant :
    ∀ (γ : Type) (parseC : γ → Option (ComponentContent × Option String))
      (query : String) (extractions : List ExtractionResult)
      (outcome : ComposerOutcome γ) (n : ℕ),
      (∀ sec ∈ (composePure parseC query extractions outcome n).1.sections,
          sec.component_ids ≠ []) ∧
        (∀ sec ∈ (composePure parseC query extractions outcome n).1.sections,
          ∀ i ∈ sec.component_ids,
            ∃ comp ∈ (composePure parseC query extractions outcome n).2,
              comp.id = i) := by
  intro γ parseC query extractions outcome n
  unfold composePure
  by_cases hval : (extractions.filter (fun e => e.is_complete)).isEmpty
  · rw [if_pos hval]
    constructor
    · intro sec hsec
      simp [composerInsufficientResponse] at hsec
      simp [hsec]
    · intro sec hsec i hi
      simp [composerInsufficientResponse] at hsec
      subst hsec
      have hi2 : i = n ∨ i = n + 1 := by
        simpa using hi
      simp only [composerInsufficientResponse, List.mem_cons, List.mem_singleton]
      rcases hi2 with rfl | rfl
      · exact ⟨_, Or.inl rfl, rfl⟩
      · exact ⟨_, Or.inr (Or.inl rfl), rfl⟩
  · rw [if_neg hval]
    cases outcome with
    | parsed d =>
      constructor
      · intro sec hsec
        exact (buildSections_invariant parseC d.sections n sec hsec).1
      · intro sec hsec i hi
        obtain ⟨comp, hcomp, hid⟩ :=
          (buildSections_invariant parseC d.sections n sec hsec).2 i hi
        exact ⟨comp, mem_addExtractionWarnings hcomp, hid⟩
    | parseFailure rawContent =>
      constructor
      · intro sec hsec
        simp [composerFallbackLayout] at hsec
        simp [hsec]
      · intro sec hsec i hi
        simp [composerFallbackLayout] at hsec
        subst hsec
        have hi2 : i = n := by simpa using hi
        subst hi2
        refine ⟨⟨i, .textBlock { content := rawContent }, none⟩,
          mem_addExtractionWarnings ?_, rfl⟩
        simp [composerFallbackLayout]
    | llmFailure =>
      constructor
      · intro sec hsec
        simp [composerFallbackResponse] at hsec
        simp [hsec]
      · intro sec hsec i hi
        simp [composerFallbackResponse] at hsec
        subst hsec
        have hi2 : i = n := by simpa using hi
        subst hi2
        refine ⟨⟨i, .textBlock
          { content := "An error occurred while generating the response. Please try again." },
          none⟩, ?_, rfl⟩
        simp [composerFallbackResponse]

theorem validateChart_valid_conditions {c : RawChart}
    (h : (validateChart c).is_valid = true) :
    2 ≤ c.totalPoints ∧ ∀ s ∈ c.series, ∀ p ∈ s.data, p.value.toFloat? ≠ none := by
  simp only [validateChart] at h
  split_ifs at h with h1 h2 h3 h4 h5 h6 h7 h8 <;>
    try (exfalso; simp [ValidationResult.invalid] at h)
  all_goals
    refine ⟨by omega, fun s hs p hp hnone => ?_⟩
  all_goals
    exact h4 (List.any_eq_true.mpr
      ⟨s, hs, List.any_eq_true.mpr ⟨p, hp, by simp [hnone]⟩⟩)

theorem invalid_not_valid {v : ConstraintViolation} {r : String} {s : Option String} :
    (ValidationResult.invalid v r s).is_valid = false := rfl

/-! ## C6 — chart constraints (amended: pie checks inspect the first series) -/

/-- C6 (amended): a chart is admitted only if it has at least 2 data points
in total and every data-point value is coercible to a number; for pie and
doughnut charts, the slice-count and negative-value checks apply to the
**first series'** data points: more than 7 first-series points, or a negative
first-series value, is rejected with violation `poor_fit` and suggestion
`bar` (negative values in later series are not checked); every component the
validator rejects is skipped (`parse_component` returns `None`). -/
theorem chart_constraints_amended :
    (∀ (c : RawChart) (cc : ComponentContent), parseComponentChart c = some cc →
        2 ≤ c.totalPoints ∧ ∀ s ∈ c.series, ∀ p ∈ s.data, p.value.toFloat? ≠ none) ∧
      (∀ c : RawChart,
        (c.chart_type.getD "bar" = "pie" ∨ c.chart_type.getD "bar" = "doughnut") →
        (∀ s ∈ c.series, ∀ p ∈ s.data, p.value.toFloat? ≠ none) →
        7 < c.firstSeriesPoints.length →
        validateChart c = .invalid .poor_fit
            "Pie chart has too many slices, maximum recommended is 7" (some "bar") ∧
          parseComponentChart c = none) ∧
      (∀ c : RawChart,
        (c.chart_type.getD "bar" = "pie" ∨ c.chart_type.getD "bar" = "doughnut") →
        (∀ s ∈ c.series, ∀ p ∈ s.data, p.value.toFloat? ≠ none) →
        c.firstSeriesPoints.length ≤ 7 →
        (∃ p ∈ c.firstSeriesPoints, p.value.floatOrZero < 0) →
        2 ≤ c.totalPoints →
        validateChart c = .invalid .poor_fit
            "Pie chart cannot display negative values" (some "bar") ∧
          parseComponentChart c = none) ∧
      (∀ c : RawChart, (validateChart c).is_valid = false →
        parseComponentChart c = none) := by
  have hskip : ∀ c : RawChart, (validateChart c).is_valid = false →
      parseComponentChart c = none := by
    intro c h
    unfold parseComponentChart
    rw [if_neg (by simp [h])]
  have hfirstLe : ∀ (s0 : RawSeries) (t : List RawSeries) (c : RawChart),
      c.series = s0 :: t → c.firstSeriesPoints = s0.data ∧
        s0.data.length ≤ c.totalPoints := by
    intro s0 t c hs
    constructor
    · simp [RawChart.firstSeriesPoints, hs]
    · simp only [RawChart.totalPoints, hs, List.map_cons, List.sum_cons]
      omega
  have hnomissing : ∀ c : RawChart,
      (∀ s ∈ c.series, ∀ p ∈ s.data, p.value.toFloat? ≠ none) →
      (c.series.any (fun s => s.data.any (fun p => p.value = RawValue.missing))
          = false) ∧
        (c.series.any (fun s => s.data.any (fun p => p.value.toFloat? = none))
          = false) := by
    intro c hco
    constructor
    · rw [List.any_eq_false]
      intro s hs hany
      obtain ⟨p, hp, hpm⟩ := List.any_eq_true.mp hany
      have := hco s hs p hp
      simp only [decide_eq_true_eq] at hpm
      rw [hpm] at this
      exact this rfl
    · rw [List.any_eq_false]
      intro s hs hany
      obtain ⟨p, hp, hpm⟩ := List.any_eq_true.mp hany
      simp only [decide_eq_true_eq] at hpm
      exact hco s hs p hp hpm
  refine ⟨?_, ?_, ?_, hskip⟩
  · intro c cc h
    have hv : (validateChart c).is_valid = true := by
      by_contra hv
      rw [hskip c (Bool.not_eq_true _ ▸ Bool.eq_false_iff.mpr hv)] at h
      exact Option.noConfusion h
    exact validateChart_valid_conditions hv
  · intro c hpie hco hlen
    obtain ⟨s0, t, hs⟩ : ∃ s0 t, c.series = s0 :: t := by
      cases hs : c.series with
      | nil => simp [RawChart.firstSeriesPoints, hs] at hlen
      | cons a t => exact ⟨a, t, rfl⟩
    obtain ⟨hfirst, hle⟩ := hfirstLe s0 t c hs
    have htp : 2 ≤ c.totalPoints := by
      rw [hfirst] at hlen
      omega
    obtain ⟨hms, hbs⟩ := hnomissing c hco
    have hval : validateChart c = .invalid .poor_fit
        "Pie chart has too many slices, maximum recommended is 7" (some "bar") := by
      simp only [validateChart]
      rw [if_neg (by simp [hs]), if_neg (by omega), if_neg (by simp [hms]),
        if_neg (by simp [hbs]), if_pos hpie, if_pos hlen]
    refine ⟨hval, hskip c ?_⟩
    rw [hval]
    rfl
  · intro c hpie hco hlen hneg htp
    obtain ⟨hms, hbs⟩ := hnomissing c hco
    have hany : c.firstSeriesPoints.any (fun p => p.value.floatOrZero < 0) = true := by
      obtain ⟨p, hp, hplt⟩ := hneg
      exact List.any_eq_true.mpr ⟨p, hp, by simpa using hplt⟩
    have hne : ¬(c.series.isEmpty = true) := by
      intro hni
      rw [List.isEmpty_iff] at hni
      simp [RawChart.totalPoints, hni] at htp
    have hval : validateChart c = .invalid .poor_fit
        "Pie chart cannot display negative values" (some "bar") := by
      simp only [validateChart]
      rw [if_neg hne, if_neg (by omega), if_neg (by simp [hms]),
        if_neg (by simp [hbs]), if_pos hpie, if_neg (by omega), if_pos (by simp [hany])]
    refine ⟨hval, hskip c ?_⟩
    rw [hval]
    rfl

/-- C6 counterexample: `pieNegChart` is a pie chart containing a negative
data-point value (in its second series) yet it passes validation and is
admitted by `parse_component` — refuting the claim that every pie chart
containing a negative value is rejected. -/
theorem chart_negative_pie_admitted_counterexample :
    pieNegChart.chart_type = some "pie" ∧
      (∃ s ∈ pieNegChart.series, ∃ p ∈ s.data, p.value.floatOrZero < 0) ∧
      (validateChart pieNegChart).is_valid = true ∧
      parseComponentChart pieNegChart ≠ none := by
  refine ⟨rfl, ?_, by decide, by decide⟩
  refine ⟨pieNegChart.series.get ⟨1, by decide⟩, by decide, ?_⟩
  refine ⟨⟨some "c", RawValue.num (-5), none⟩, by decide, ?_⟩
  norm_num [RawValue.floatOrZero]

/-- C6 witness: a pie chart with 9 slices in its first series is rejected
with `poor_fit` and suggestion `bar`, and skipped. -/
theorem chart_constraints_witness :
    validateChart pieNineSlices = .invalid .poor_fit
        "Pie chart has too many slices, maximum recommended is 7" (some "bar") ∧
      parseComponentChart pieNineSlices = none :=
  chart_constraints_amended.2.1 pieNineSlices (Or.inl rfl) (by decide) (by decide)

/-! ## C9 — comparison shape (amended: value counts are not enforced) -/

/-- C9 (amended): every comparison component admitted to the output has at
least 2 (named) items and at least 1 attribute, and each attribute has a
non-empty name and non-empty values; the parallel-shape condition
`len(values) == len(items)` is **not** enforced — a mismatch is only logged
as a warning. -/
theorem comparison_admitted_amended :
    ∀ (c : RawComparison) (comp : Comparison),
      parseComponentComparison c = some (.comparison comp) →
        2 ≤ comp.items.length ∧ comp.attributes ≠ [] ∧
          ∀ a ∈ comp.attributes, a.name ≠ "" ∧ a.values ≠ [] := by
  intro c comp h
  unfold parseComponentComparison at h
  by_cases hv : (validateComparison c).is_valid
  · rw [if_pos hv] at h
    unfold parseComparisonContent at h
    by_cases hemp :
        ((c.items.filter (fun i => optStrTruthy i.name)).map (fun i =>
            ComparisonItem.mk (i.name.getD "") i.description)).isEmpty = true ∨
          ((c.attributes.filter (fun a => optStrTruthy a.name && !a.values.isEmpty)).map
              (fun a => ComparisonAttribute.mk (a.name.getD "") a.values)).isEmpty = true
    · rw [if_pos hemp] at h
      exact Option.noConfusion h
    · rw [if_neg hemp] at h
      have hcomp : comp =
          { items := (c.items.filter (fun i => optStrTruthy i.name)).map (fun i =>
              ComparisonItem.mk (i.name.getD "") i.description),
            attributes :=
              (c.attributes.filter (fun a => optStrTruthy a.name && !a.values.isEmpty)).map
                (fun a => ComparisonAttribute.mk (a.name.getD "") a.values),
            title := c.title, caption := c.caption } := by
        have := Option.some.inj h
        cases this
        rfl
      subst hcomp
      refine ⟨?_, ?_, ?_⟩
      · simp only [validateComparison] at hv
        split_ifs at hv with v1 v2
        · exact absurd hv (by simp [ValidationResult.invalid])
        · exact absurd hv (by simp [ValidationResult.invalid])
        · simp only [List.length_map]
          omega
      · intro hnil
        simp only [List.map_eq_nil_iff] at hnil
        rw [not_or] at hemp
        exact hemp.2 (by simp [hnil])
      · intro a ha
        obtain ⟨a0, ha0, haeq⟩ := List.mem_map.mp ha
        have hp := (List.mem_filter.mp ha0).2
        simp only [Bool.and_eq_true, Bool.not_eq_true'] at hp
        obtain ⟨hname, hvalues⟩ := hp
        subst haeq
        constructor
        · cases hn : a0.name with
          | none => rw [hn] at hname; simp [optStrTruthy] at hname
          | some s =>
            rw [hn] at hname
            simp only [optStrTruthy, decide_eq_true_eq] at hname
            simpa [hn] using hname
        · simpa [List.isEmpty_iff] using hvalues
  · rw [if_neg hv] at h
    exact Option.noConfusion h

/-- C9 counterexample: a comparison whose single attribute carries 3 values
against 2 items is admitted unchanged — the declared parallel shape
`len(values) == len(items)` does not hold for the admitted component. -/
theorem comparison_shape_counterexample :
    parseComponentComparison mismatchComparison = some (.comparison mismatchParsed) ∧
      mismatchParsed.items.length = 2 ∧
      ∃ a ∈ mismatchParsed.attributes, a.values.length ≠ mismatchParsed.items.length := by
  refine ⟨by decide, rfl, ⟨⟨"x", ["1", "2", "3"]⟩, by decide, by decide⟩⟩

/-- C9 witness: the amended invariant evaluated on a concrete admitted
comparison. -/
theorem comparison_admitted_witness :
    2 ≤ mismatchParsed.items.length ∧ mismatchParsed.attributes ≠ [] ∧
      ∀ a ∈ mismatchParsed.attributes, a.name ≠ "" ∧ a.values ≠ [] :=
  comparison_admitted_amended mismatchComparison mismatchParsed (by decide)

/-! ## C10 — unrecognised chart_type coerces to bar -/

/-- C10: `parse_component` never rejects a chart solely for an unrecognised
`chart_type` string: when the value is outside the six enum members but the
series pass the chart constraints, the admitted component is a `Chart` whose
`chart_type` is coerced to `bar`. -/
theorem chart_type_coerced_to_bar :
    ∀ (c : RawChart) (s : String), c.chart_type = some s →
      chartTypeOfString s = none → (validateChart c).is_valid = true →
      ∃ ch : Chart, parseComponentChart c = some (.chart ch) ∧ ch.chart_type = .bar := by
  intro c s hct hnone hvalid
  unfold parseComponentChart
  rw [if_pos hvalid]
  unfold parseChartContent
  rw [hct]
  simp only [Option.getD_some, hnone, Option.getD_none]
  have htp := (validateChart_valid_conditions hvalid).1
  by_cases hse :
      (c.series.filterMap (fun s =>
        if (s.data.map (fun d =>
            ChartDataPoint.mk (d.label.getD "") d.value.floatOrZero d.category)).isEmpty
        then none
        else some (ChartSeries.mk (s.name.getD "")
          (s.data.map (fun d =>
            ChartDataPoint.mk (d.label.getD "") d.value.floatOrZero d.category))))).isEmpty
  · exfalso
    rw [List.isEmpty_iff, List.filterMap_eq_nil_iff] at hse
    have hall : ∀ s ∈ c.series, s.data.length = 0 := by
      intro s hs
      have := hse s hs
      by_cases hd : (s.data.map (fun d =>
          ChartDataPoint.mk (d.label.getD "") d.value.floatOrZero d.category)).isEmpty
      · simpa [List.isEmpty_iff, List.map_eq_nil_iff, List.length_eq_zero] using hd
      · rw [if_neg hd] at this
        exact Option.noConfusion this
    have hzero : c.totalPoints = 0 := by
      simp only [RawChart.totalPoints]
      exact List.sum_eq_zero (by
        intro x hx
        obtain ⟨s, hs, hxeq⟩ := List.mem_map.mp hx
        rw [← hxeq]
        exact hall s hs)
    omega
  · rw [if_neg hse]
    exact ⟨_, rfl, rfl⟩

/-- C10 witness: a chart with `chart_type = "scatter"` and a valid series is
admitted as a `bar` chart. -/
theorem chart_type_coerced_witness :
    ∃ ch : Chart, parseComponentChart scatterChart = some (.chart ch) ∧
      ch.chart_type = .bar :=
  chart_type_coerced_to_bar scatterChart "scatter" rfl rfl (by decide)

theorem executeQuery_cacheHit (env : PipelineEnv) (q : Query) (n : ℕ)
    (r : RAGResult) (h : env.cached = some r) :
    executeQuery env q n = (⟨r, CostBreakdown.zero⟩, []) := by
  unfold executeQuery
  rw [h]

theorem executeQuery_insufficient (env : PipelineEnv) (q : Query) (n : ℕ)
    (hc : env.cached = none) (hs : env.retrieval.is_sufficient = false) :
    executeQuery env q n =
      (⟨{ insufficientDataResponse q env.retrieval.warnings n with
            metadata := ⟨0, env.retrieval.chunks.length, 0, "unknown"⟩ },
        CostBreakdown.zero⟩,
       [.plannerCall, .retrieverCall]) := by
  unfold executeQuery
  rw [hc, hs]
  rfl

theorem executeQuery_success (env : PipelineEnv) (q : Query) (n : ℕ)
    (hc : env.cached = none) (hs : env.retrieval.is_sufficient = true) :
    executeQuery env q n =
      (⟨successResult env q n, successCost env q⟩,
       [.plannerCall, .retrieverCall]
         ++ env.intent.expected_components.map .extractCall
         ++ [.composeCall]
         ++ (if verifierRuns env then [.verifyCall] else [])
         ++ [.cacheWrite (successResult env q n)]) := by
  unfold executeQuery
  rw [hc, hs]
  rfl

/-- The notice `_filter_unsupported_claims` inserts. -/
theorem filterUnsupportedClaims_spec (components : List Component)
    (v : VerificationResult) (n : ℕ) :
    filterUnsupportedClaims components v n =
      if v.unsupported_claims.any (fun c => c.severity = "error") then
        components.insertIdx (min 1 components.length)
          ⟨n, .notice
            { message := "Some information could not be fully verified against source documents. Please verify critical facts independently.",
              level := .warning, title := some "Verification Warning" }, none⟩
      else components := by
  simp only [filterUnsupportedClaims]
  by_cases hemp : v.unsupported_claims.isEmpty
  · rw [if_pos hemp]
    rw [List.isEmpty_iff] at hemp
    rw [if_neg (by simp [hemp])]
  · rw [if_neg hemp]
    by_cases herr : (v.unsupported_claims.filter (fun c => c.severity = "error")).isEmpty
    · rw [if_pos herr]
      rw [List.isEmpty_iff, List.filter_eq_nil_iff] at herr
      rw [if_neg (by
        simp only [List.any_eq_true, not_exists]
        intro c hcon
        exact herr c hcon.1 (by simpa using hcon.2))]
    · rw [if_neg herr]
      rw [List.isEmpty_iff] at herr
      obtain ⟨c, hc⟩ := List.exists_mem_of_ne_nil _ herr
      have hcf := List.mem_filter.mp hc
      rw [if_pos (List.any_eq_true.mpr ⟨c, hcf.1, hcf.2⟩)]

/-! ## C1 — cache hit (amended: the stored `cached` flag is returned as is) -/

/-- C1 (amended): when the cache lookup returns a previously stored result,
`execute` returns **exactly** that stored `RAGResult` — including its stored
`cached` flag, which is `False` for every result the pipeline itself writes
to the cache — with zero cost, making no planner / retriever / extractor /
composer / verifier calls and no cache write. -/
theorem cache_hit_returns_stored :
    (∀ (env : PipelineEnv) (q : Query) (n : ℕ) (r : RAGResult),
        env.cached = some r →
          executeQuery env q n = (⟨r, CostBreakdown.zero⟩, []) ∧
            CostBreakdown.zero.total_cents = 0) ∧
      ∀ (env : PipelineEnv) (q : Query) (n : ℕ) (s : RAGResult),
        PipelineEvent.cacheWrite s ∈ (executeQuery env q n).2 → s.cached = false := by
  constructor
  · intro env q n r h
    exact ⟨executeQuery_cacheHit env q n r h, rfl⟩
  · intro env q n s hmem
    cases hc : env.cached with
    | some r =>
      rw [executeQuery_cacheHit env q n r hc] at hmem
      simp at hmem
    | none =>
      by_cases hs : env.retrieval.is_sufficient
      · rw [executeQuery_success env q n hc hs] at hmem
        simp only [List.mem_append, List.mem_map, List.mem_cons,
          List.mem_singleton] at hmem
        rcases hmem with ((((h | h) | ⟨t, _, h⟩) | h) | h) | h
        · exact absurd h (by simp)
        · exact absurd h (by simp)
        · exact absurd h (by simp)
        · exact absurd h (by simp)
        · rcases hv : verifierRuns env with _ | _ <;> rw [hv] at h <;> simp at h
        · rcases h with h | h
          · rw [PipelineEvent.cacheWrite.inj h]
            rfl
          · simp at h
      · rw [executeQuery_insufficient env q n hc (Bool.not_eq_true _ ▸
          Bool.eq_false_iff.mpr hs)] at hmem
        simp at hmem

/-- C1 counterexample: the pipeline stores results with `cached = False` and
a cache hit returns the stored result verbatim, so the returned `cached`
flag is `False`, not `True` as the claim states. -/
theorem cache_hit_cached_flag_counterexample :
    cacheHitEnv.cached = some storedResult ∧ storedResult.cached = false ∧
      (executeQuery cacheHitEnv sampleQuery 0).1.result.cached = false := by
  exact ⟨rfl, rfl, rfl⟩

/-- C1 witness: the amended theorem applied to a concrete cache-hit
environment. -/
theorem cache_hit_returns_stored_witness :
    executeQuery cacheHitEnv sampleQuery 0 = (⟨storedResult, CostBreakdown.zero⟩, []) :=
  (cache_hit_returns_stored.1 cacheHitEnv sampleQuery 0 storedResult rfl).1

/-! ## C2 — insufficient retrieval (amended: `chunks_used` is the retrieved
chunk count) -/

/-- C2 (amended): whenever the retriever reports `is_sufficient = false` on a
cache miss, `execute` returns exactly two components — a warning-level notice
titled "Limited Information" followed by a markdown text block of suggestions
— with `metadata.documents_retrieved = 0`,
`metadata.chunks_used = len(retrieval.chunks)` (the retrieved chunk count,
not necessarily 0), a zero cost breakdown, no extractor or composer
invocation, and no cache write. -/
theorem insufficient_retrieval_path (env : PipelineEnv) (q : Query) (n : ℕ)
    (hc : env.cached = none) (hs : env.retrieval.is_sufficient = false) :
    (∃ msg content,
        (executeQuery env q n).1.result.components =
          [⟨n, .notice { message := msg, level := .warning,
                         title := some "Limited Information" }, none⟩,
           ⟨n + 1, .textBlock { content := content }, none⟩]) ∧
      (executeQuery env q n).1.result.metadata.chunks_used
          = env.retrieval.chunks.length ∧
      (executeQuery env q n).1.result.metadata.documents_retrieved = 0 ∧
      (executeQuery env q n).1.cost = CostBreakdown.zero ∧
      (executeQuery env q n).2 = [.plannerCall, .retrieverCall] := by
  rw [executeQuery_insufficient env q n hc hs]
  refine ⟨⟨"Unable to fully answer this query: " ++
      (if env.retrieval.warnings.isEmpty then "Limited relevant information found."
       else String.intercalate "; " env.retrieval.warnings),
    "The query '" ++ q.text ++ "' could not be fully answered. Try:\n- Using different keywords\n- Narrowing the date range\n- Specifying particular politicians or parties",
    ?_⟩, rfl, rfl, rfl, rfl⟩
  rfl

/-- C2 counterexample: a retrieval that returned one chunk but was judged
insufficient yields `metadata.chunks_used = 1`, not 0 — the orchestrator
overwrites the metadata with `len(retrieval.chunks)`. -/
theorem insufficient_chunks_used_counterexample :
    insufEnv.retrieval.is_sufficient = false ∧
      (executeQuery insufEnv sampleQuery 0).1.result.metadata.chunks_used = 1 :=
  ⟨rfl, rfl⟩

/-- C2 witness: the amended theorem applied to a concrete insufficient
environment. -/
theorem insufficient_retrieval_witness :
    (executeQuery insufEnv sampleQuery 0).2 = [.plannerCall, .retrieverCall] :=
  (insufficient_retrieval_path insufEnv sampleQuery 0 rfl rfl).2.2.2.2

/-! ## C4 — verification annotates (amended: a notice is inserted only when
`is_valid` is false **and** an error-severity claim exists) -/

/-- C4 (amended): verification never removes components — on the success path
the composed components always form a sublist (unchanged, in order) of the
final list.  Exactly one warning notice is inserted at index
`min(1, len(components))` precisely when the verifier ran
(configured and non-empty context), reported `is_valid = false`, **and** at
least one unsupported claim has severity `"error"`; in every other case —
including `is_valid = true` alongside error-severity claims — nothing is
inserted. -/
theorem verification_never_removes (env : PipelineEnv) (q : Query) (n : ℕ)
    (hc : env.cached = none) (hs : env.retrieval.is_sufficient = true) :
    List.Sublist env.composedComponents
        ((executeQuery env q n).1.result.components) ∧
      ((verifierRuns env = true ∧ env.verification.is_valid = false ∧
          env.verification.unsupported_claims.any
            (fun c => c.severity = "error") = true) →
        (executeQuery env q n).1.result.components =
          env.composedComponents.insertIdx
            (min 1 env.composedComponents.length)
            ⟨n, .notice
              { message := "Some information could not be fully verified against source documents. Please verify critical facts independently.",
                level := .warning, title := some "Verification Warning" }, none⟩) ∧
      (¬(verifierRuns env = true ∧ env.verification.is_valid = false ∧
          env.verification.unsupported_claims.any
            (fun c => c.severity = "error") = true) →
        (executeQuery env q n).1.result.components = env.composedComponents) := by
  rw [executeQuery_success env q n hc hs]
  have hcomp : (successResult env q n).components = successComponents env n := rfl
  rw [hcomp]
  by_cases hrun : verifierRuns env = true ∧ env.verification.is_valid = false
  · have hscomp : successComponents env n =
        filterUnsupportedClaims env.composedComponents env.verification n := by
      simp [successComponents, hrun.1, hrun.2]
    rw [hscomp, filterUnsupportedClaims_spec]
    by_cases hany : env.verification.unsupported_claims.any
        (fun c => c.severity = "error") = true
    · rw [if_pos hany]
      refine ⟨sublist_insertIdx _ _ _, fun _ => rfl, fun hneg => ?_⟩
      exact absurd ⟨hrun.1, hrun.2, hany⟩ hneg
    · rw [if_neg hany]
      exact ⟨List.Sublist.refl _, fun hpos => absurd hpos.2.2 hany, fun _ => rfl⟩
  · have hscomp : successComponents env n = env.composedComponents := by
      simp only [successComponents]
      rw [if_neg]
      intro hand
      rw [Bool.and_eq_true, Bool.not_eq_true'] at hand
      exact hrun ⟨hand.1, hand.2⟩
    rw [hscomp]
    exact ⟨List.Sublist.refl _,
      fun hpos => absurd ⟨hpos.1, hpos.2.1⟩ hrun, fun _ => rfl⟩

/-- C4 counterexample: the verifier reports `is_valid = true` while also
returning an `error`-severity unsupported claim; the orchestrator only calls
`_filter_unsupported_claims` when `is_valid` is false, so no warning notice
is inserted — refuting the claim that an error-severity claim alone forces
an insertion. -/
theorem verification_ignored_when_valid_counterexample :
    verifIgnoredEnv.verifierConfigured = true ∧
      verifIgnoredEnv.verification.unsupported_claims.any
          (fun c => c.severity = "error") = true ∧
      verifIgnoredEnv.verification.is_valid = true ∧
      (executeQuery verifIgnoredEnv sampleQuery 0).1.result.components
          = verifIgnoredEnv.composedComponents := by
  exact ⟨rfl, by decide, rfl, rfl⟩

/-- C4 witness: with `is_valid = false` and an error-severity claim, the
notice is inserted at index `min(1, 1) = 1`. -/
theorem verification_never_removes_witness :
    (executeQuery verifErrorEnv sampleQuery 5).1.result.components =
      verifErrorEnv.composedComponents.insertIdx
        (min 1 verifErrorEnv.composedComponents.length)
        ⟨5, .notice
          { message := "Some information could not be fully verified against source documents. Please verify critical facts independently.",
            level := .warning, title := some "Verification Warning" }, none⟩ :=
  (verification_never_removes verifErrorEnv sampleQuery 5 rfl rfl).2.1
    ⟨rfl, rfl, by decide⟩

/-- C3 witness: the embed-call log equals the effective rewritten queries on
the concrete fan-out example. -/
theorem multi_entity_merge_dedup_witness :
    (retrieveMultiEntity (V := String) (fun s => s) storeAB 10 3 "base" ["A", "B"]).2
      = effectiveQueries "base" ["A", "B"] :=
  (multi_entity_merge_dedup.1 String (fun s => s) storeAB 10 3 "base" ["A", "B"]).2

/-- C5 witness: the amended monotonicity at concrete token counts. -/
theorem cost_margin_total_cents_le_witness :
    (CostBreakdown.calculate 1000 1000 1000 1 0).total_cents ≤
      (CostBreakdown.calculate 1000 1000 1000 1 (2/5)).total_cents :=
  cost_margin_total_cents_le 1000 1000 1000 1

/-- C7 witness: the layout invariant evaluated on a concrete composer run. -/
theorem composer_layout_invariant_witness :
    (⟨[0, 1], none, none⟩ : Section).component_ids ≠ [] ∧
      ∃ comp ∈ (composePure (γ := Unit) (fun _ => none) "q" [] .llmFailure 0).2,
        comp.id = 0 :=
  ⟨(composer_layout_invariant Unit (fun _ => none) "q" [] .llmFailure 0).1
      ⟨[0, 1], none, none⟩ (by decide),
    (composer_layout_invariant Unit (fun _ => none) "q" [] .llmFailure 0).2
      ⟨[0, 1], none, none⟩ (by decide) 0 (by decide)⟩

/-- C8 witness: the sorted output is a permutation of the concrete input. -/
theorem chronological_sort_witness :
    (retrieveChronological [chunkMar, chunkJan, chunkNoDate, chunkFeb] 3).chunks.Perm
      [chunkMar, chunkJan, chunkNoDate, chunkFeb] :=
  chronological_sort.2.1 [chunkMar, chunkJan, chunkNoDate, chunkFeb] 3

end PollyPipeline
